import Mathlib

/-!
Verification of the ppxml rendering engine (TEI → text/HTML/EPUB).

Shallow embedding of the core modules:
* `src/writers/core/context.py`        → `RenderContext`
* `src/writers/core/base_renderer.py`  → shared helpers (`get_smart_quotes`, …)
* `src/writers/renderers/text_renderer.py` → `TextR` namespace
* `src/writers/renderers/html_renderer.py` → `HtmlR` namespace
* `src/writers/renderers/epub_renderer.py` → `EpubR` namespace

XML elements are modelled as rose trees mirroring lxml: an element carries its
tag, its attributes, its leading text (`elem.text`), and its children, each
paired with the text that follows it (`child.tail`).  Python strings are
modelled as Lean `String`s; the handful of Python string primitives the code
uses (`str.split()`, `str.strip()`, `str.join`, `str.replace`, `html.escape`,
`textwrap.fill`) are given explicit executable models below.
-/

/-! ## Python string primitives -/

/-- Model of Python `str.strip()` restricted to the whitespace the documents
use: drop leading and trailing whitespace characters. -/
def pyStrip (s : String) : String :=
  String.mk (((s.data.dropWhile Char.isWhitespace).reverse.dropWhile
    Char.isWhitespace).reverse)

/-- Helper for `pySplit`: split a character list into maximal runs of
non-whitespace characters; `acc` is the current word, reversed. -/
def pySplitAux (acc : List Char) : List Char → List String
  | [] => if acc.isEmpty then [] else [String.mk acc.reverse]
  | c :: cs =>
    if c.isWhitespace then
      if acc.isEmpty then pySplitAux [] cs
      else String.mk acc.reverse :: pySplitAux [] cs
    else
      pySplitAux (c :: acc) cs

/-- Model of Python `str.split()` with no argument: split on whitespace runs,
dropping empty fields. -/
def pySplit (s : String) : List String :=
  pySplitAux [] s.data

/-- Model of Python `sep.join(parts)`. -/
def pyJoin (sep : String) : List String → String
  | [] => ""
  | x :: xs => xs.foldl (fun a b => a ++ sep ++ b) x

/-- Model of Python `s.replace(pat, "")` for a fixed non-empty pattern, on
character lists: remove every (leftmost, non-overlapping) occurrence.  The
`fuel` argument (instantiated with the list length, enough for the scan,
since every step consumes at least one character) only makes the recursion
structural. -/
def removeAllF (pat : List Char) : Nat → List Char → List Char
  | _, [] => []
  | 0, l => l
  | fuel + 1, c :: cs =>
    if pat ≠ [] ∧ pat.isPrefixOf (c :: cs) then
      removeAllF pat fuel (List.drop pat.length (c :: cs))
    else
      c :: removeAllF pat fuel cs

/-- Remove every occurrence of `pat`, on character lists. -/
def removeAll (pat : List Char) (l : List Char) : List Char :=
  removeAllF pat l.length l

/-- Model of Python `str.replace(pat, "")` on strings. -/
def pyRemove (pat : String) (s : String) : String :=
  String.mk (removeAll pat.data s.data)

/-- Model of Python `str.upper()` (ASCII as used by the documents). -/
def pyUpper (s : String) : String :=
  String.mk (s.data.map Char.toUpper)

/-- Model of Python `html.escape(s)` (with `quote=True`, the default):
replace `&`, `<`, `>`, double quote and apostrophe by entities. -/
def escapeHtml (s : String) : String :=
  String.mk (s.data.foldr (fun c acc =>
    if c = '&' then "&amp;".data ++ acc
    else if c = '<' then "&lt;".data ++ acc
    else if c = '>' then "&gt;".data ++ acc
    else if c = '"' then "&quot;".data ++ acc
    else if c = Char.ofNat 39 then "&#x27;".data ++ acc
    else c :: acc) [])

/-- Model of Python `str * n` for building indents: repeat a string. -/
def repeatStr (s : String) : Nat → String
  | 0 => ""
  | n + 1 => s ++ repeatStr s n

/-! ## RenderContext (src/writers/core/context.py) -/

/-- Model of `RenderContext`: the frozen dataclass carrying all inherited rendering
state (context.py lines 13-51), with the source's field defaults. -/
structure RenderContext where
  parent_tag : String := ""
  parent_rend : String := ""
  quote_depth : Nat := 0
  block_depth : Nat := 0
  indent_level : Int := 0
  indent_string : String := "    "
  line_width : Nat := 72
  xhtml : Bool := false
  id_map : List (String × String) := []
deriving Repr, DecidableEq

namespace RenderContext

/-- Model of `with_parent(tag, rend='')` (context.py line 53). -/
def with_parent (c : RenderContext) (tag : String) (rend : String := "") :
    RenderContext :=
  { c with parent_tag := tag, parent_rend := rend }

/-- Model of `with_deeper_quote()` (context.py line 66). -/
def with_deeper_quote (c : RenderContext) : RenderContext :=
  { c with quote_depth := c.quote_depth + 1 }

/-- Model of `with_deeper_block()` (context.py line 78). -/
def with_deeper_block (c : RenderContext) : RenderContext :=
  { c with block_depth := c.block_depth + 1 }

/-- Model of `with_indent(levels)` (context.py line 90); `levels` may be negative. -/
def with_indent (c : RenderContext) (levels : Int) : RenderContext :=
  { c with indent_level := c.indent_level + levels }

/-- Model of `with_xhtml(xhtml)` (context.py line 102). -/
def with_xhtml (c : RenderContext) (x : Bool) : RenderContext :=
  { c with xhtml := x }

/-- Model of `with_id_map(id_map)` (context.py line 114). -/
def with_id_map (c : RenderContext) (m : List (String × String)) :
    RenderContext :=
  { c with id_map := m }

/-- Model of `current_indent` property (context.py line 126): `indent_string *
indent_level`; Python string repetition by a negative count is empty. -/
def current_indent (c : RenderContext) : String :=
  repeatStr c.indent_string c.indent_level.toNat

/-- Model of `is_inline_parent` property (context.py line 137). -/
def is_inline_parent (c : RenderContext) : Bool :=
  c.parent_tag ∈ ["p", "item", "cell", "note", "head", "l"]

/-- Model of `is_block_parent` property (context.py line 149). -/
def is_block_parent (c : RenderContext) : Bool :=
  c.parent_tag ∈ ["div", "body", "front", "back", "quote", "figure"]

end RenderContext

/-! ## Shared renderer helpers (src/writers/core/base_renderer.py) -/

/-- Model of `get_smart_quotes(depth)` (base_renderer.py lines 77-94): even depths use
double angled quotation marks, odd depths single ones. -/
def get_smart_quotes (depth : Nat) : String × String :=
  if depth % 2 = 0 then ("“", "”") else ("‘", "’")

/-! ## XML element trees (lxml model) -/

/-- The TEI namespace in lxml's `{uri}tag` notation
(base_renderer.py line 17). -/
def teiNsBrace : String := "\x7bhttp://www.tei-c.org/ns/1.0\x7d"

/-- The `xml:id` attribute as lxml exposes it: qualified by the XML
namespace. -/
def xmlIdAttr : String := "\x7bhttp://www.w3.org/XML/1998/namespace\x7did"

/-- An lxml element: tag, attributes, leading text (`elem.text`), and
children, each paired with its following text (`child.tail`). -/
inductive Elem : Type where
  | mk (tag : String) (attrs : List (String × String)) (text : String)
      (children : List (Elem × String)) : Elem

/-- The element's tag. -/
def Elem.tag : Elem → String
  | .mk t _ _ _ => t

/-- The element's attribute list. -/
def Elem.attrs : Elem → List (String × String)
  | .mk _ a _ _ => a

/-- The element's leading text (`elem.text`; lxml's `None` is `""`). -/
def Elem.text : Elem → String
  | .mk _ _ t _ => t

/-- The element's children with their tail texts. -/
def Elem.children : Elem → List (Elem × String)
  | .mk _ _ _ cs => cs

/-- Model of lxml `elem.get(name, default)`. -/
def Elem.get (e : Elem) (name dflt : String) : String :=
  ((e.attrs.lookup name).getD dflt)

/-- Model of `strip_namespace(tag)` (base_renderer.py lines 164-174):
`tag.replace("{TEI_NS}", "")`. -/
def strip_ns (tag : String) : String :=
  pyRemove teiNsBrace tag

mutual

/-- Model of `''.join(elem.itertext())`: depth-first concatenation of all
text and tail content. -/
def itertext : Elem → String
  | .mk _ _ t cs => t ++ itertextList cs

/-- Model of `itertext` over a child list: each child's text followed by its tail. -/
def itertextList : List (Elem × String) → String
  | [] => ""
  | (e, tl) :: rest => itertext e ++ tl ++ itertextList rest

end

/-- Model of `extract_plain_text(elem)` (base_renderer.py lines 114-124):
`''.join(elem.itertext()).strip()`. -/
def extract_plain_text (e : Elem) : String :=
  pyStrip (itertext e)

/-- Model of `get_rend_class(elem, default='')` (base_renderer.py lines 126-139). -/
def get_rend_class (e : Elem) (dflt : String := "") : String :=
  e.get "rend" dflt

/-- Model of lxml `elem.findall('tei:NAME')`: the direct children whose
namespace-stripped tag is `NAME`. -/
def Elem.findall (e : Elem) (name : String) : List Elem :=
  (e.children.filter (fun c => strip_ns c.1.tag = name)).map Prod.fst

/-- Model of lxml `elem.find('tei:NAME')`: the first such child, if any. -/
def Elem.find (e : Elem) (name : String) : Option Elem :=
  (e.findall name).head?

/-! ## textwrap model

`textwrap.fill(text, width, initial_indent, subsequent_indent,
break_long_words=False, break_on_hyphens=False)` followed by
`.split('\n')`, for the whitespace-normalised single-spaced text the
renderers always pass: greedy line filling over the word list.  A word is
appended to the current line when the line length plus a separating space
plus the word still fits the available width (`width` minus the indent
length); a word longer than the available width is emitted unbroken on a
line of its own (`break_long_words=False`). -/

/-- Greedy chunk grouping: `availNow` is the available width of the line
being built, `availRest` that of later lines; `cur` is the current line's
words in reverse, `curLen` its joined length. -/
def wrapChunks (availNow availRest : Nat) (cur : List String) (curLen : Nat) :
    List String → List (List String)
  | [] => if cur.isEmpty then [] else [cur.reverse]
  | w :: ws =>
    if cur.isEmpty then
      wrapChunks availNow availRest [w] w.length ws
    else if curLen + 1 + w.length ≤ availNow then
      wrapChunks availNow availRest (w :: cur) (curLen + 1 + w.length) ws
    else
      cur.reverse :: wrapChunks availRest availRest [w] w.length ws

/-- Model of `textwrap.fill(...).split('\n')` on a word list: wrap greedily, then
prefix the first line with `ini` and the rest with `sub` (the renderers only
ever pass indents of equal length, so a single per-line available width is
faithful). `fill('')` yields a single empty line. -/
def fillLines (width : Nat) (ini sub : String) (words : List String) :
    List String :=
  match wrapChunks (width - ini.length) (width - sub.length) [] 0 words with
  | [] => [""]
  | g :: gs => (ini ++ pyJoin " " g) :: gs.map (fun g2 => sub ++ pyJoin " " g2)

/-- The joined length of one wrapped line's word group: the words' lengths
plus one separating space between consecutive words (the measure tracked by
`wrapChunks`'s `curLen`). -/
def lineLen : List String → Nat
  | [] => 0
  | w :: ws => w.length + (ws.map (fun x => x.length + 1)).sum

/-! ## Text renderer (src/writers/renderers/text_renderer.py)

All functions are parameterised by `W`, the renderer instance's
`self.line_width` (set at construction, default 72). -/

namespace TextR

/-- Kernel of `_visual_length` (text_renderer.py lines 502-514):
`re.sub(r'_([^_]+)_', r'\1', text)` on a character list — remove each
leftmost non-overlapping underscore-pair emphasis marker. -/
def stripEmphMarkersF : Nat → List Char → List Char
  | _, [] => []
  | 0, l => l
  | fuel + 1, c :: cs =>
    if c = '_' then
      match cs.dropWhile (fun d => d ≠ '_') with
      | '_' :: rest =>
        let inner := cs.takeWhile (fun d => d ≠ '_')
        if inner.isEmpty then c :: stripEmphMarkersF fuel cs
        else inner ++ stripEmphMarkersF fuel rest
      | _ => c :: stripEmphMarkersF fuel cs
    else c :: stripEmphMarkersF fuel cs

/-- Remove each leftmost non-overlapping `_…_` emphasis marker pair; the
fuel (the list length suffices: every step consumes at least one
character) only makes the recursion structural. -/
def stripEmphMarkers (l : List Char) : List Char :=
  stripEmphMarkersF l.length l

/-- Model of `_visual_length(text)` (text_renderer.py lines 502-514). -/
def visual_length (text : String) : Nat :=
  (stripEmphMarkers text.data).length

mutual

/-- Model of `_extract_text_with_emphasis(elem, context)` (text_renderer.py lines
435-500): the element's text followed by each rendered child and its tail. -/
def extract_text_with_emphasis (ctx : RenderContext) : Elem → String
  | .mk _ _ t cs => t ++ extractChildren ctx cs

/-- The loop of `_extract_text_with_emphasis`, with the per-child dispatch
inline as in the Python loop body: line-break → newline; nested quote →
glyphs at the current depth around recursion at depth+1; emphasis, note,
ref, title/foreign and unknown tags → flattened text with markers; each
followed by the child's tail text. -/
def extractChildren (ctx : RenderContext) : List (Elem × String) → String
  | [] => ""
  | (child, tl) :: rest =>
    let tag := strip_ns child.tag
    let part :=
      if tag = "lb" then "\n"
      else if tag = "quote" then
        let child_context := ctx.with_deeper_quote
        let child_text := extract_text_with_emphasis child_context child
        (get_smart_quotes ctx.quote_depth).1 ++ child_text ++
          (get_smart_quotes ctx.quote_depth).2
      else if tag = "emph" ∨ tag = "hi" then
        "_" ++ extract_plain_text child ++ "_"
      else if tag = "note" then
        " [" ++ extract_plain_text child ++ "]"
      else if tag = "ref" then
        extract_plain_text child
      else if tag = "title" ∨ tag = "foreign" then
        "_" ++ extract_plain_text child ++ "_"
      else
        extract_plain_text child
    part ++ tl ++ extractChildren ctx rest

end

/-- Model of `render_head(elem, context, traverser)` (text_renderer.py lines
111-140): heading rendering varies with the enclosing parent tag. -/
def render_head (ctx : RenderContext) (e : Elem) : List String :=
  let heading_text := pyStrip (extract_plain_text e)
  if heading_text = "" then []
  else if ctx.parent_tag = "body" then
    ["", "", "", pyUpper heading_text, "", ""]
  else if ctx.parent_tag = "front" then
    [heading_text, repeatStr "=" heading_text.length, ""]
  else if ctx.parent_tag = "back" then
    [pyUpper heading_text, ""]
  else if ctx.parent_tag = "div" then
    [pyUpper heading_text, "", ""]
  else []

/-- Model of `render_paragraph(elem, context, traverser)` (text_renderer.py lines
142-166): extract, whitespace-normalise (`' '.join(text.split())`), wrap at
`self.line_width` with the context indent, then one trailing blank line.
The normalise-then-rechunk step of `textwrap.fill` is modelled by passing
the word list straight to the wrapper. -/
def render_paragraph (W : Nat) (ctx : RenderContext) (e : Elem) :
    List String :=
  let text := pyStrip (extract_text_with_emphasis ctx e)
  if text = "" then []
  else
    fillLines W ctx.current_indent ctx.current_indent (pySplit text) ++ [""]

/-- Model of `_format_verse_line(line_text, line_rend, poem_rend, context)`
(text_renderer.py lines 317-330). -/
def format_verse_line (W : Nat) (ctx : RenderContext) (line_text : String)
    (line_rend : String) : String :=
  if line_rend = "center" then
    repeatStr " " ((W - visual_length line_text) / 2) ++ line_text
  else if line_rend = "indent" then
    ctx.current_indent ++ "      " ++ line_text
  else if line_rend = "indent2" then
    ctx.current_indent ++ "        " ++ line_text
  else if line_rend = "indent3" then
    ctx.current_indent ++ "          " ++ line_text
  else
    ctx.current_indent ++ "    " ++ line_text

/-- The per-line adjustment of `_render_stanza`'s first loop (text_renderer.py
lines 287-295). -/
def stanzaLineAdjust (W : Nat) (line_text line_rend : String) : String :=
  if line_rend = "center" then
    repeatStr " " ((W - visual_length line_text) / 2) ++ line_text
  else if line_rend = "indent" then "  " ++ line_text
  else if line_rend = "indent2" then "    " ++ line_text
  else if line_rend = "indent3" then "      " ++ line_text
  else line_text

/-- Model of `_render_stanza(stanza_elem, context)` (text_renderer.py lines 269-315):
collect the stanza's verse lines with per-line adjustments, then either
centre the block as a unit or apply the base poem indent. -/
def render_stanza (W : Nat) (ctx : RenderContext) (stanza : Elem) :
    List String :=
  let stanza_rend := stanza.get "rend" ""
  let collected := (stanza.children.filter
      (fun c => strip_ns c.1.tag = "l")).map (fun c =>
    let line_text := pyStrip (extract_text_with_emphasis ctx c.1)
    let line_rend := c.1.get "rend" ""
    (stanzaLineAdjust W line_text line_rend, line_rend))
  let line_texts := collected.map Prod.fst
  let body :=
    if stanza_rend = "center" ∧ ¬ line_texts.isEmpty then
      let max_len := (line_texts.map visual_length).foldl max 0
      let block_padding := (W - max_len) / 2
      line_texts.map (fun t => repeatStr " " block_padding ++ t)
    else
      collected.map (fun p =>
        if p.2 = "center" then p.1 else ctx.current_indent ++ "    " ++ p.1)
  body ++ [""]

/-- Model of `render_list(elem, context, traverser)` (text_renderer.py lines
332-356): bullet-prefixed items with hanging indent. -/
def render_list (W : Nat) (ctx : RenderContext) (e : Elem) : List String :=
  let item_context := (ctx.with_parent "list").with_parent "item"
  let indent := ctx.current_indent
  (((e.findall "item").map (fun item =>
      pyStrip (extract_text_with_emphasis item_context item))).filter
        (fun t => t ≠ "")).map
    (fun item_text =>
      pyJoin "\n" (fillLines W (indent ++ "  • ") (indent ++ "    ")
        (pySplit item_text))) ++ [""]

/-- Python `str.ljust(n)`. -/
def ljust (s : String) (n : Nat) : String :=
  s ++ repeatStr " " (n - s.length)

/-- Model of `render_table(elem, context, traverser)` (text_renderer.py lines
358-390): per-column maximal widths, two-space gutters, left-justified. -/
def render_table (ctx : RenderContext) (e : Elem) : List String :=
  let rows_data := ((e.findall "row").map (fun row =>
    (row.findall "cell").map (fun cell => pyStrip (extract_plain_text cell)))).filter
      (fun cells => ¬ cells.isEmpty)
  let body :=
    if rows_data.isEmpty then []
    else
      let colWidth : Nat → Nat := fun i =>
        rows_data.foldl (fun acc row =>
          ((row.get? i).map (fun c => max acc c.length)).getD acc) 0
      rows_data.map (fun row =>
        ctx.current_indent ++ "  " ++
          pyJoin "  " (row.mapIdx (fun i cell => ljust cell (colWidth i))))
  body ++ [""]

/-- Model of `render_figure(elem, context, traverser)` (text_renderer.py lines
392-419): wrapped `[Illustration: caption]`, or bare `[Illustration]`. -/
def render_figure (W : Nat) (ctx : RenderContext) (e : Elem) : List String :=
  let body :=
    match e.find "head" with
    | some head =>
      let caption := pyStrip (extract_plain_text head)
      if caption ≠ "" then
        fillLines W ctx.current_indent ctx.current_indent
          (pySplit ("[Illustration: " ++ caption ++ "]"))
      else [ctx.current_indent ++ "[Illustration]"]
    | none => [ctx.current_indent ++ "[Illustration]"]
  body ++ [""]

/-- Model of `render_milestone(elem, context, traverser)` (text_renderer.py lines
421-433): a centred decorative star rule for `rend="stars"`, otherwise two
blank lines. -/
def render_milestone (W : Nat) (e : Elem) : List String :=
  let rend := get_rend_class e "space"
  if rend = "stars" then
    let stars := "*       *       *       *       *"
    [repeatStr " " ((W - stars.length) / 2) ++ stars, ""]
  else ["", ""]

mutual

/-- Model of `TEITraverser.traverse_element` (traverser.py lines 106-125) as driven
by the text renderer: strip the namespace and dispatch. -/
def traverse_element (W : Nat) (ctx : RenderContext) (e : Elem) :
    List String :=
  render_element W ctx e (strip_ns e.tag)
termination_by (sizeOf e, 2)

/-- Model of `render_element(elem, tag, context, traverser)` (text_renderer.py lines
59-94): tag dispatch; an unrecognised tag is skipped (`return []`). -/
def render_element (W : Nat) (ctx : RenderContext) (e : Elem)
    (tag : String) : List String :=
  if tag = "div" then render_div W ctx e
  else if tag = "head" then render_head ctx e
  else if tag = "p" then render_paragraph W ctx e
  else if tag = "quote" then render_quote W ctx e
  else if tag = "lg" then render_line_group W ctx e
  else if tag = "list" then render_list W ctx e
  else if tag = "table" then render_table ctx e
  else if tag = "figure" then render_figure W ctx e
  else if tag = "milestone" then render_milestone W e
  else []
termination_by (sizeOf e, 1)

/-- Model of `render_children` (base_renderer.py lines 176-211) for the text
renderer: render each child under the given context, dropping empty
results. -/
def render_kids (W : Nat) (ctx : RenderContext) :
    List (Elem × String) → List (List String)
  | [] => []
  | (child, _) :: rest =>
    let r := traverse_element W ctx child
    if r.isEmpty then render_kids W ctx rest
    else r :: render_kids W ctx rest
termination_by cs => (sizeOf cs, 3)

/-- Model of `render_div(elem, context, traverser)` (text_renderer.py lines 96-109):
render the children under a `div` parent context and splice the line
lists. -/
def render_div (W : Nat) (ctx : RenderContext) : Elem → List String
  | .mk _ _ _ cs => (render_kids W (ctx.with_parent "div") cs).flatten
termination_by e => (sizeOf e, 0)

/-- The block-children loop of `render_quote` (text_renderer.py lines
188-199), with the block filter applied inline. -/
def quote_children (W : Nat) (cc : RenderContext) :
    List (Elem × String) → List String
  | [] => []
  | (child, _) :: rest =>
    if strip_ns child.tag ∈ ["p", "lg", "list", "table", "figure", "div", "quote"] then
      traverse_element W (cc.with_parent (strip_ns child.tag)) child ++
        quote_children W cc rest
    else quote_children W cc rest
termination_by cs => (sizeOf cs, 3)

/-- Model of `render_quote(elem, context, traverser)` (text_renderer.py lines
168-219): inline quotes yield nothing here (handled during text
extraction); block quotes indent one level and either render their
block-level children or fall back to wrapping the flattened text. -/
def render_quote (W : Nat) (ctx : RenderContext) : Elem → List String
  | .mk t a tx cs =>
    if ctx.is_inline_parent then []
    else
      let child_context := (ctx.with_indent 1).with_deeper_block
      if cs.any (fun c =>
          strip_ns c.1.tag ∈ ["p", "lg", "list", "table", "figure", "div", "quote"]) then
        quote_children W child_context cs
      else
        let text := pyStrip (extract_text_with_emphasis child_context (.mk t a tx cs))
        if text = "" then []
        else
          fillLines W child_context.current_indent child_context.current_indent
            (pySplit text) ++ [""]
termination_by e => (sizeOf e, 0)

/-- The child loop of `render_line_group` (text_renderer.py lines
228-264). -/
def lg_children (W : Nat) (ctx child_context : RenderContext)
    (rend : String) : List (Elem × String) → List String
  | [] => []
  | (child, _) :: rest =>
    let tag := strip_ns child.tag
    let part :=
      if tag = "head" then
        let title := pyStrip (extract_plain_text child)
        if title = "" then []
        else if rend = "center" then
          [repeatStr " " ((W - title.length) / 2) ++ pyUpper title, ""]
        else [ctx.current_indent ++ "    " ++ pyUpper title, ""]
      else if tag = "lg" then render_stanza W ctx child
      else if tag = "l" then
        let line_text := pyStrip (extract_text_with_emphasis ctx child)
        let line_rend := child.get "rend" ""
        [format_verse_line W ctx line_text line_rend]
      else traverse_element W child_context child
    part ++ lg_children W ctx child_context rend rest
termination_by cs => (sizeOf cs, 3)

/-- Model of `render_line_group(elem, context, traverser)` (text_renderer.py lines
221-267). -/
def render_line_group (W : Nat) (ctx : RenderContext) : Elem → List String
  | .mk t a tx cs =>
    let rend := get_rend_class (.mk t a tx cs)
    lg_children W ctx (ctx.with_parent "lg" rend) rend cs ++ [""]
termination_by e => (sizeOf e, 0)

end

end TextR

/-! ## HTML renderer (src/writers/renderers/html_renderer.py) -/

/-- Model of Python `'\n'.split`-style line splitting: `s.split('\n')`,
keeping empty fields. -/
def splitLinesAux (acc : List Char) : List Char → List String
  | [] => [String.mk acc.reverse]
  | c :: cs =>
    if c = '\n' then String.mk acc.reverse :: splitLinesAux [] cs
    else splitLinesAux (c :: acc) cs

/-- Python `s.split('\n')`. -/
def pySplitNL (s : String) : List String :=
  splitLinesAux [] s.data

/-- Python `s.startswith(p)` (kernel-computable model). -/
def pyStartsWith (s p : String) : Bool :=
  p.data.isPrefixOf s.data

namespace HtmlR

/-- The renderer variant actually dispatching: the plain HTML renderer, or
the EPUB renderer which overrides `render_milestone`
(epub_renderer.py lines 150-170). -/
inductive Variant : Type where
  | html : Variant
  | epubv : Variant

/-- Escape text when the context demands XHTML output (the
`if context.xhtml: html_module.escape(...)` pattern of
html_renderer.py `render_text_content`). -/
def escIf (ctx : RenderContext) (s : String) : String :=
  if ctx.xhtml then escapeHtml s else s

/-- Model of `target.startswith(('#', 'http://', 'https://', '//'))`
(html_renderer.py lines 480 and 486). -/
def targetStartsSpecial (t : String) : Bool :=
  pyStartsWith t "#" || pyStartsWith t "http://" ||
    pyStartsWith t "https://" || pyStartsWith t "//"

/-- Cross-reference target resolution for a `ref` element
(html_renderer.py lines 477-487): with a truthy id-map, a bare target is
qualified as `<mapped-file>#<target>` when mapped, else `#<target>`;
without one a bare target becomes `#<target>`; a target starting with
`#`, `http://`, `https://` or `//` is left unchanged. -/
def resolveTarget (id_map : List (String × String)) (target : String) :
    String :=
  if ¬ id_map.isEmpty ∧ ¬ targetStartsSpecial target then
    match id_map.lookup target with
    | some target_file => target_file ++ "#" ++ target
    | none => "#" ++ target
  else if ¬ targetStartsSpecial target then "#" ++ target
  else target

mutual

/-- Model of `render_text_content(elem, context)` (html_renderer.py lines 413-529):
the element's (possibly escaped) text followed by each rendered inline
child and its tail. -/
def render_text_content (ctx : RenderContext) : Elem → String
  | .mk _ _ t cs => escIf ctx t ++ tcChildren ctx cs

/-- The child loop of `render_text_content`, with the per-child dispatch
inline as in the Python loop body: line break, nested quote (glyphs at the
current depth around recursion at depth+1), highlight, emphasis, reference
(with cross-reference resolution), note, foreign, title, or the
unknown-tag text fallback; each followed by the child's (possibly escaped)
tail text. -/
def tcChildren (ctx : RenderContext) : List (Elem × String) → String
  | [] => ""
  | (child, tl) :: rest =>
    let tag := strip_ns child.tag
    let part :=
      if tag = "lb" then
        if ctx.xhtml then "<br/>" else "<br>"
      else if tag = "quote" then
        let child_context := ctx.with_deeper_quote
        let child_text := render_text_content child_context child
        (get_smart_quotes ctx.quote_depth).1 ++ child_text ++
          (get_smart_quotes ctx.quote_depth).2
      else if tag = "hi" then
        let rend := child.get "rend" "italic"
        let child_text := escIf ctx (extract_plain_text child)
        if rend = "italic" then "<i>" ++ child_text ++ "</i>"
        else if rend = "bold" then "<b>" ++ child_text ++ "</b>"
        else "<span class=\"" ++ rend ++ "\">" ++ child_text ++ "</span>"
      else if tag = "emph" then
        "<em>" ++ escIf ctx (extract_plain_text child) ++ "</em>"
      else if tag = "ref" then
        let target := resolveTarget ctx.id_map (child.get "target" "#")
        "<a href=\"" ++ target ++ "\">" ++
          escIf ctx (extract_plain_text child) ++ "</a>"
      else if tag = "note" then
        "<sup>[" ++ escIf ctx (extract_plain_text child) ++ "]</sup>"
      else if tag = "foreign" then
        "<i>" ++ escIf ctx (extract_plain_text child) ++ "</i>"
      else if tag = "title" then
        "<i>" ++ escIf ctx (extract_plain_text child) ++ "</i>"
      else
        escIf ctx (extract_plain_text child)
    part ++ escIf ctx tl ++ tcChildren ctx rest

end

/-- Model of `render_head(elem, context, traverser)` (html_renderer.py lines
190-204): under a `div`/`front`/`back`/`body` parent, an `h2` carrying the
parent division's `xml:id` as anchor when present; otherwise an inline
heading rendered by its parent, so empty.  `par` is lxml's
`elem.getparent()`. -/
def render_head (par : Option Elem) (ctx : RenderContext) (e : Elem) :
    String :=
  if ctx.parent_tag = "div" ∨ ctx.parent_tag = "front" ∨
      ctx.parent_tag = "back" ∨ ctx.parent_tag = "body" then
    let div_id := (par.map (fun p => p.get xmlIdAttr "")).getD ""
    if div_id ≠ "" then
      "<h2 id=\"" ++ div_id ++ "\">" ++ render_text_content ctx e ++ "</h2>"
    else
      "<h2>" ++ render_text_content ctx e ++ "</h2>"
  else ""

/-- Model of `render_paragraph(elem, context, traverser)` (html_renderer.py lines
206-216). -/
def render_paragraph (ctx : RenderContext) (e : Elem) : String :=
  let rend := get_rend_class e
  let content := render_text_content (ctx.with_parent "p" rend) e
  if rend ≠ "" then "<p class=\"" ++ rend ++ "\">" ++ content ++ "</p>"
  else "<p>" ++ content ++ "</p>"

/-- Model of `render_list(elem, context, traverser)` (html_renderer.py lines
324-335). -/
def render_list (ctx : RenderContext) (e : Elem) : String :=
  let item_context := (ctx.with_parent "list").with_parent "item"
  let items := (e.findall "item").map (fun item =>
    "  <li>" ++ render_text_content item_context item ++ "</li>")
  "<ul>\n" ++ pyJoin "\n" items ++ "\n</ul>"

/-- Model of `render_table(elem, context, traverser)` (html_renderer.py lines
337-355). -/
def render_table (ctx : RenderContext) (e : Elem) : String :=
  let child_context := ctx.with_parent "table"
  let rows := (e.findall "row").map (fun row =>
    let row_context := child_context.with_parent "row"
    let cells := (row.findall "cell").map (fun cell =>
      let cell_tag := if cell.get "role" "" = "label" then "th" else "td"
      let content := render_text_content (row_context.with_parent "cell") cell
      "    <" ++ cell_tag ++ ">" ++ content ++ "</" ++ cell_tag ++ ">")
    "  <tr>\n" ++ pyJoin "\n" cells ++ "\n  </tr>")
  "<table>\n" ++ pyJoin "\n" rows ++ "\n</table>"

/-- Model of `render_figure(elem, context, traverser)` (html_renderer.py lines
357-399). -/
def render_figure (ctx : RenderContext) (e : Elem) : String :=
  let graphic := e.find "graphic"
  let width := (graphic.map (fun g => g.get "width" "")).getD ""
  let rend := get_rend_class e
  let opening :=
    if width ≠ "" ∧ rend ≠ "" then
      "<figure class=\"" ++ rend ++ "\" style=\"width: " ++ width ++ ";\">"
    else if width ≠ "" then "<figure style=\"width: " ++ width ++ ";\">"
    else if rend ≠ "" then "<figure class=\"" ++ rend ++ "\">"
    else "<figure>"
  let imgPart :=
    match graphic with
    | some g =>
      let url := g.get "url" ""
      let alt0 := ((e.find "figDesc").map extract_plain_text).getD ""
      let alt := if ctx.xhtml then escapeHtml alt0 else alt0
      if ctx.xhtml then ["  <img src=\"" ++ url ++ "\" alt=\"" ++ alt ++ "\"/>"]
      else ["  <img src=\"" ++ url ++ "\" alt=\"" ++ alt ++ "\">"]
    | none => []
  let capPart :=
    match e.find "head" with
    | some head =>
      ["  <figcaption>" ++
        render_text_content (ctx.with_parent "figure") head ++ "</figcaption>"]
    | none => []
  pyJoin "\n" ([opening] ++ imgPart ++ capPart ++ ["</figure>"])

/-- Model of `render_milestone(elem, context, traverser)` (html_renderer.py lines
401-405). -/
def render_milestone (e : Elem) : String :=
  let rend := get_rend_class e "space"
  "<div class=\"milestone " ++ rend ++ "\"></div>"

/-- The EPUB override `render_milestone` (epub_renderer.py lines
150-170). -/
def epub_render_milestone (e : Elem) : String :=
  let rend := get_rend_class e "space"
  if rend = "stars" then "<div class=\"milestone stars\"></div>"
  else "<div class=\"milestone space\"></div>"

/-- Model of `render_signed(elem, context, traverser)` (html_renderer.py lines
407-411). -/
def render_signed (ctx : RenderContext) (e : Elem) : String :=
  "<div class=\"signature\">" ++ render_text_content ctx e ++ "</div>"

mutual

/-- Model of `TEITraverser.traverse_element` (traverser.py lines 106-125) as driven
by the HTML/EPUB renderer: strip the namespace and dispatch.  `par` is the
lxml parent of `e` (available to handlers through `elem.getparent()`). -/
def traverse_element (v : Variant) (par : Option Elem) (ctx : RenderContext)
    (e : Elem) : String :=
  render_element v par ctx e (strip_ns e.tag)
termination_by (sizeOf e, 2)

/-- Model of `render_element(elem, tag, context, traverser)` (html_renderer.py lines
123-162): tag dispatch with the flattened-text fallback; the `milestone`
arm models the EPUB subclass override. -/
def render_element (v : Variant) (par : Option Elem) (ctx : RenderContext)
    (e : Elem) (tag : String) : String :=
  if tag = "div" then render_div v ctx e
  else if tag = "head" then render_head par ctx e
  else if tag = "p" then render_paragraph ctx e
  else if tag = "quote" then render_quote v ctx e
  else if tag = "lg" then render_line_group v ctx e
  else if tag = "list" then render_list ctx e
  else if tag = "table" then render_table ctx e
  else if tag = "figure" then render_figure ctx e
  else if tag = "milestone" then
    match v with
    | .html => render_milestone e
    | .epubv => epub_render_milestone e
  else if tag = "signed" then render_signed ctx e
  else render_text_content ctx e
termination_by (sizeOf e, 1)

/-- Model of `render_children` (base_renderer.py lines 176-211) for the HTML
renderer: render each child of `par` under the given context, dropping
empty results. -/
def render_kids (v : Variant) (par : Elem) (ctx : RenderContext) :
    List (Elem × String) → List String
  | [] => []
  | (child, _) :: rest =>
    let r := traverse_element v (some par) ctx child
    if r = "" then render_kids v par ctx rest
    else r :: render_kids v par ctx rest
termination_by cs => (sizeOf cs, 3)

/-- Model of `render_div(elem, context, traverser)` (html_renderer.py lines
164-188): an opening tag carrying `xml:id` and `type`, the rendered
children, and a closing tag, joined with newlines. -/
def render_div (v : Variant) (ctx : RenderContext) : Elem → String
  | .mk t a tx cs =>
    let e := Elem.mk t a tx cs
    let div_type := e.get "type" ""
    let div_id := e.get xmlIdAttr ""
    let opening :=
      if div_id ≠ "" ∧ div_type ≠ "" then
        "<div id=\"" ++ div_id ++ "\" class=\"" ++ div_type ++ "\">"
      else if div_id ≠ "" then "<div id=\"" ++ div_id ++ "\">"
      else if div_type ≠ "" then "<div class=\"" ++ div_type ++ "\">"
      else "<div>"
    let children := render_kids v (Elem.mk t a tx cs)
      (ctx.with_parent "div" div_type) cs
    pyJoin "\n" ([opening] ++ children ++ ["</div>"])
termination_by e => (sizeOf e, 0)

/-- The block-children loop of `render_quote` (html_renderer.py lines
241-248), with the block filter applied inline. -/
def quote_children (v : Variant) (par : Elem) (cc : RenderContext) :
    List (Elem × String) → List String
  | [] => []
  | (child, _) :: rest =>
    if strip_ns child.tag ∈
        ["p", "lg", "list", "table", "figure", "div", "quote", "signed"] then
      let child_rend := child.get "rend" ""
      let r := traverse_element v (some par)
        (cc.with_parent (strip_ns child.tag) child_rend) child
      if r = "" then quote_children v par cc rest
      else r :: quote_children v par cc rest
    else quote_children v par cc rest
termination_by cs => (sizeOf cs, 3)

/-- Model of `render_quote(elem, context, traverser)` (html_renderer.py lines
218-256): inline quotes get the depth-selected glyph pair around content
rendered at depth+1; block quotes become a `blockquote` of their
block-level children, or of the flattened text wrapped in one paragraph. -/
def render_quote (v : Variant) (ctx : RenderContext) : Elem → String
  | .mk t a tx cs =>
    let e := Elem.mk t a tx cs
    if ctx.is_inline_parent then
      let child_context := ctx.with_deeper_quote
      let content := render_text_content child_context e
      (get_smart_quotes ctx.quote_depth).1 ++ content ++
        (get_smart_quotes ctx.quote_depth).2
    else
      if cs.any (fun c => strip_ns c.1.tag ∈
          ["p", "lg", "list", "table", "figure", "div", "quote", "signed"]) then
        let children := quote_children v (Elem.mk t a tx cs)
          ctx.with_deeper_block cs
        "<blockquote>\n" ++ pyJoin "\n" children ++ "\n</blockquote>"
      else
        let content := render_text_content (ctx.with_parent "quote") e
        "<blockquote><p>" ++ content ++ "</p></blockquote>"
termination_by e => (sizeOf e, 0)

/-- The stanza-children loop of `render_line_group` (html_renderer.py lines
287-303). -/
def stanza_children (v : Variant) (par : Elem)
    (stanza_context : RenderContext) : List (Elem × String) → List String
  | [] => []
  | (sc, _) :: rest =>
    let part :=
      if strip_ns sc.tag = "l" then
        let line_rend := sc.get "rend" ""
        let line_class := if line_rend ≠ "" then "line " ++ line_rend else "line"
        ["    <div class=\"" ++ line_class ++ "\">" ++
          render_text_content stanza_context sc ++ "</div>"]
      else
        let r := traverse_element v (some par) stanza_context sc
        if r = "" then []
        else (pySplitNL r).map (fun line => "    " ++ line)
    part ++ stanza_children v par stanza_context rest
termination_by cs => (sizeOf cs, 3)

/-- The child loop of `render_line_group` (html_renderer.py lines
271-319). -/
def lg_children (v : Variant) (par : Elem) (child_context : RenderContext) :
    List (Elem × String) → List String
  | [] => []
  | (child, _) :: rest =>
    let tag := strip_ns child.tag
    let part :=
      if tag = "head" then
        ["  <div class=\"poem-title\">" ++
          render_text_content child_context child ++ "</div>"]
      else if tag = "lg" then
        match child with
        | .mk ct ca ctx2 ccs =>
          ["  <div class=\"stanza\">"] ++
            stanza_children v (Elem.mk ct ca ctx2 ccs)
              (child_context.with_parent "lg") ccs ++
            ["  </div>"]
      else if tag = "l" then
        let line_rend := child.get "rend" ""
        let line_class := if line_rend ≠ "" then "line " ++ line_rend else "line"
        ["  <div class=\"" ++ line_class ++ "\">" ++
          render_text_content child_context child ++ "</div>"]
      else
        let r := traverse_element v (some par) child_context child
        if r = "" then []
        else (pySplitNL r).map (fun line => "  " ++ line)
    part ++ lg_children v par child_context rest
termination_by cs => (sizeOf cs, 3)

/-- Model of `render_line_group(elem, context, traverser)` (html_renderer.py lines
258-322). -/
def render_line_group (v : Variant) (ctx : RenderContext) : Elem → String
  | .mk t a tx cs =>
    let e := Elem.mk t a tx cs
    let rend := get_rend_class e
    let opening :=
      if rend ≠ "" then "<div class=\"poem " ++ rend ++ "\">"
      else "<div class=\"poem\">"
    let body := lg_children v (Elem.mk t a tx cs) (ctx.with_parent "lg" rend) cs
    pyJoin "\n" ([opening] ++ body ++ ["</div>"])
termination_by e => (sizeOf e, 0)

end

end HtmlR

/-! ## EPUB renderer (src/writers/renderers/epub_renderer.py) -/

namespace EpubR

/-- The renderer-instance fields of `HTMLRenderer`/`EPUBRenderer` set at
construction (`css_file`, the `title` cache, the forced `xhtml` flag);
`render_chapter` reads none of them. -/
structure RendererState where
  css_file : Option String := none
  title : String := ""
  xhtml : Bool := true

/-- The `parts` list assembled by `render_chapter(div, book_title, id_map)`
(epub_renderer.py lines 37-109): XML/doctype preamble, head with escaped
title and stylesheet link, an optional chapter heading — whose anchor id is
read with the misspelled namespace `http://www.w3.org/1998/namespace`
(line 78), exactly as the source does — then every non-`head` child
rendered through the shared dispatch under an id-map-aware context, and
the fixed closing. -/
def chapter_parts (div : Elem) (book_title : String)
    (id_map : List (String × String)) : List String :=
  let head := div.find "head"
  let chapter_title :=
    match head with
    | some h => pyStrip (extract_plain_text h)
    | none => book_title
  let context : RenderContext :=
    { parent_tag := "body", xhtml := true, id_map := id_map }
  let preamble :=
    ["<?xml version=\"1.0\" encoding=\"UTF-8\"?>",
     "<!DOCTYPE html>",
     "<html xmlns=\"http://www.w3.org/1999/xhtml\" xmlns:epub=\"http://www.idpf.org/2007/ops\">",
     "<head>",
     "  <title>" ++ escapeHtml chapter_title ++ "</title>",
     "  <link rel=\"stylesheet\" type=\"text/css\" href=\"styles.css\"/>",
     "</head>",
     "<body>"]
  let headingPart :=
    match head with
    | some h =>
      let div_id := div.get "\x7bhttp://www.w3.org/1998/namespace\x7did" ""
      if div_id ≠ "" then
        ["<h2 id=\"" ++ escapeHtml div_id ++ "\">" ++
          escapeHtml (pyStrip (extract_plain_text h)) ++ "</h2>"]
      else
        ["<h2>" ++ escapeHtml (pyStrip (extract_plain_text h)) ++ "</h2>"]
    | none => []
  let body := (div.children.filter
      (fun c => strip_ns c.1.tag ≠ "head")).filterMap (fun c =>
    let r := HtmlR.traverse_element .epubv (some div)
      (context.with_parent "div") c.1
    if r = "" then none else some r)
  preamble ++ headingPart ++ body ++ ["</body>", "</html>"]

/-- Model of `render_chapter(div, book_title, id_map)` (epub_renderer.py lines
37-109): the joined chapter document. -/
def render_chapter (div : Elem) (book_title : String)
    (id_map : List (String × String)) : String :=
  pyJoin "\n" (chapter_parts div book_title id_map)

/-- Model of `render_chapter` as invoked on a renderer instance: the method reads no
instance state, which the explicit `RendererState` argument makes
visible. -/
def render_chapter_st (_st : RendererState) (div : Elem)
    (book_title : String) (id_map : List (String × String)) : String :=
  render_chapter div book_title id_map

end EpubR

/-! ## Concrete fixtures

Small documents used by the concrete parts of the theorems, mirroring the
repository's own test inputs (src/tests/). -/

/-- A context whose parent is a division. -/
def divCtx : RenderContext := { parent_tag := "div" }

/-- A context whose parent is the document body. -/
def bodyCtx : RenderContext := { parent_tag := "body" }

/-- A division-parent context indented one level. -/
def indent1Ctx : RenderContext := { parent_tag := "div", indent_level := 1 }

/-- A paragraph-parent context carrying the id-map of the spec's
cross-reference example. -/
def refCtx : RenderContext := { parent_tag := "p", id_map := [("ch1", "chapter1")] }

/-- Model of `<quote>A<quote>B</quote>C</quote>`. -/
def nestedQuote : Elem :=
  .mk "quote" [] "A" [(.mk "quote" [] "B" [], "C")]

/-- Model of `<p><quote>A<quote>B</quote>C</quote></p>`. -/
def nestedQuotePara : Elem := .mk "p" [] "" [(nestedQuote, "")]

/-- A bare single-level quote `<quote>A</quote>`. -/
def plainQuote : Elem := .mk "quote" [] "A" []

/-- Model of `<p>Line 1<lb/>Line 2</p>` (the repository's own line-break test input,
src/tests/test_text_renderer.py line 266). -/
def lbPara : Elem := .mk "p" [] "Line 1" [(.mk "lb" [] "" [], "Line 2")]

/-- A paragraph holding one 7-character word. -/
def longWordPara : Elem := .mk "p" [] "aaaaaaa" []

/-- A paragraph holding two 3-character words. -/
def twoWordPara : Elem := .mk "p" [] "aaa bbb" []

/-- A paragraph holding two short words. -/
def helloPara : Elem := .mk "p" [] "hello world" []

/-- Model of `<head>AB</head>`. -/
def abHead : Elem := .mk "head" [] "AB" []

/-- Model of `<head>Chapter One</head>`. -/
def chapterHead : Elem := .mk "head" [] "Chapter One" []

/-- An element with an unrecognised tag holding only text. -/
def fooElem : Elem := .mk "foo" [] "x" []

/-- Model of `<p>See <ref target="ch1">Chapter 1</ref>.</p>`. -/
def refPara : Elem :=
  .mk "p" [] "See " [(.mk "ref" [("target", "ch1")] "Chapter 1" [], ".")]

/-- Model of `<div xml:id="ch1"><head>Chapter One</head><p>Content.</p></div>` (the
repository's own chapter test input,
src/tests/test_epub_renderer.py lines 150-161). -/
def chapterDiv : Elem :=
  .mk "div" [(xmlIdAttr, "ch1")] ""
    [(chapterHead, ""), (.mk "p" [] "Content." [], "")]

/-! ## Theorems -/

/-- Claim C2: Every `RenderContext` derive operation is a pure record
construction: it never alters the receiver (in this value embedding of the
frozen dataclass, the receiver is untouched by construction, and each
operation reads every field it does not set unchanged from the receiver),
and deepening the quote depth commutes with adjusting the indent, for
every integer adjustment. -/
theorem context_derive_immutable_and_commutes :
    (∀ (c : RenderContext) (n : Int),
      (c.with_deeper_quote).with_indent n = (c.with_indent n).with_deeper_quote) ∧
    (∀ (c : RenderContext) (tag rend : String) (n : Int) (x : Bool)
        (m : List (String × String)),
      (c.with_parent tag rend).quote_depth = c.quote_depth ∧
      (c.with_parent tag rend).block_depth = c.block_depth ∧
      (c.with_parent tag rend).indent_level = c.indent_level ∧
      (c.with_parent tag rend).indent_string = c.indent_string ∧
      (c.with_parent tag rend).line_width = c.line_width ∧
      (c.with_parent tag rend).xhtml = c.xhtml ∧
      (c.with_parent tag rend).id_map = c.id_map ∧
      (c.with_deeper_quote).parent_tag = c.parent_tag ∧
      (c.with_deeper_quote).parent_rend = c.parent_rend ∧
      (c.with_deeper_quote).block_depth = c.block_depth ∧
      (c.with_deeper_quote).indent_level = c.indent_level ∧
      (c.with_deeper_quote).indent_string = c.indent_string ∧
      (c.with_deeper_quote).line_width = c.line_width ∧
      (c.with_deeper_quote).xhtml = c.xhtml ∧
      (c.with_deeper_quote).id_map = c.id_map ∧
      (c.with_deeper_block).parent_tag = c.parent_tag ∧
      (c.with_deeper_block).parent_rend = c.parent_rend ∧
      (c.with_deeper_block).quote_depth = c.quote_depth ∧
      (c.with_deeper_block).indent_level = c.indent_level ∧
      (c.with_deeper_block).indent_string = c.indent_string ∧
      (c.with_deeper_block).line_width = c.line_width ∧
      (c.with_deeper_block).xhtml = c.xhtml ∧
      (c.with_deeper_block).id_map = c.id_map ∧
      (c.with_indent n).parent_tag = c.parent_tag ∧
      (c.with_indent n).parent_rend = c.parent_rend ∧
      (c.with_indent n).quote_depth = c.quote_depth ∧
      (c.with_indent n).block_depth = c.block_depth ∧
      (c.with_indent n).indent_string = c.indent_string ∧
      (c.with_indent n).line_width = c.line_width ∧
      (c.with_indent n).xhtml = c.xhtml ∧
      (c.with_indent n).id_map = c.id_map ∧
      (c.with_xhtml x).parent_tag = c.parent_tag ∧
      (c.with_xhtml x).parent_rend = c.parent_rend ∧
      (c.with_xhtml x).quote_depth = c.quote_depth ∧
      (c.with_xhtml x).block_depth = c.block_depth ∧
      (c.with_xhtml x).indent_level = c.indent_level ∧
      (c.with_xhtml x).indent_string = c.indent_string ∧
      (c.with_xhtml x).line_width = c.line_width ∧
      (c.with_xhtml x).id_map = c.id_map ∧
      (c.with_id_map m).parent_tag = c.parent_tag ∧
      (c.with_id_map m).parent_rend = c.parent_rend ∧
      (c.with_id_map m).quote_depth = c.quote_depth ∧
      (c.with_id_map m).block_depth = c.block_depth ∧
      (c.with_id_map m).indent_level = c.indent_level ∧
      (c.with_id_map m).indent_string = c.indent_string ∧
      (c.with_id_map m).line_width = c.line_width ∧
      (c.with_id_map m).xhtml = c.xhtml) := by
  refine ⟨fun c n => ?_, fun c tag rend n x m => ?_⟩
  · simp [RenderContext.with_deeper_quote, RenderContext.with_indent]
  · repeat' constructor

/-- Claim C10: Each `RenderContext` derive operation has the frame property:
it changes exactly its named fields — `with_deeper_quote` only
`quote_depth` (by exactly +1), `with_deeper_block` only `block_depth` (by
exactly +1), `with_indent` only `indent_level`, `with_parent` only
`parent_tag` and `parent_rend`, `with_xhtml` only `xhtml`, and
`with_id_map` only `id_map` — leaving every other field equal to the
receiver's. -/
theorem context_derive_frame :
    ∀ (c : RenderContext) (tag rend : String) (n : Int) (x : Bool)
      (m : List (String × String)),
      c.with_parent tag rend =
        { c with parent_tag := tag, parent_rend := rend } ∧
      c.with_deeper_quote = { c with quote_depth := c.quote_depth + 1 } ∧
      c.with_deeper_block = { c with block_depth := c.block_depth + 1 } ∧
      c.with_indent n = { c with indent_level := c.indent_level + n } ∧
      c.with_xhtml x = { c with xhtml := x } ∧
      c.with_id_map m = { c with id_map := m } := by
  intro c tag rend n x m
  exact ⟨rfl, rfl, rfl, rfl, rfl, rfl⟩

/-- Claim C1: `get_smart_quotes` returns the double angled pair at every even
depth and the single pair at every odd depth; in inline quotation rendering
(`render_text_content`) the glyph pair around a quotation is selected at
the `quote_depth` in force *before* that quotation deepens the context;
and rendering `<p><quote>A<quote>B</quote>C</quote></p>` yields exactly
one double-open, one double-close, one single-open and one single-close
glyph, with `B` strictly between the single pair and `A`, `C` outside
it. -/
theorem smart_quote_alternation :
    (∀ d : Nat, (d % 2 = 0 → get_smart_quotes d = ("“", "”")) ∧
      (d % 2 = 1 → get_smart_quotes d = ("‘", "’"))) ∧
    (∀ (ctx : RenderContext) (q : Elem) (tl : String)
        (rest : List (Elem × String)), strip_ns q.tag = "quote" →
      HtmlR.tcChildren ctx ((q, tl) :: rest) =
        (get_smart_quotes ctx.quote_depth).1 ++
          HtmlR.render_text_content ctx.with_deeper_quote q ++
          (get_smart_quotes ctx.quote_depth).2 ++
          HtmlR.escIf ctx tl ++ HtmlR.tcChildren ctx rest) ∧
    HtmlR.render_paragraph divCtx nestedQuotePara = "<p>“A‘B’C”</p>" ∧
    "<p>“A‘B’C”</p>".data.count '“' = 1 ∧
    "<p>“A‘B’C”</p>".data.count '”' = 1 ∧
    "<p>“A‘B’C”</p>".data.count '‘' = 1 ∧
    "<p>“A‘B’C”</p>".data.count '’' = 1 ∧
    "<p>“A‘B’C”</p>".data.indexOf 'A' < "<p>“A‘B’C”</p>".data.indexOf '‘' ∧
    "<p>“A‘B’C”</p>".data.indexOf '‘' < "<p>“A‘B’C”</p>".data.indexOf 'B' ∧
    "<p>“A‘B’C”</p>".data.indexOf 'B' < "<p>“A‘B’C”</p>".data.indexOf '’' ∧
    "<p>“A‘B’C”</p>".data.indexOf '’' < "<p>“A‘B’C”</p>".data.indexOf 'C' := by
  refine ⟨fun d => ⟨fun h => ?_, fun h => ?_⟩, fun ctx q tl rest h => ?_, ?_⟩
  · simp [get_smart_quotes, h]
  · simp [get_smart_quotes, h]
  · simp only [HtmlR.tcChildren, h]
    simp [String.append_assoc]
  · exact ⟨by decide, by decide, by decide, by decide, by decide,
      by decide, by decide, by decide, by decide⟩

/-- Witness for `smart_quote_alternation`: its inline-quotation equation,
instantiated at depth 0 with the quote `<quote>A</quote>` inside a
division-parent context. -/
theorem smart_quote_alternation_witness :
    HtmlR.tcChildren divCtx [(plainQuote, "")] =
      (get_smart_quotes divCtx.quote_depth).1 ++
        HtmlR.render_text_content divCtx.with_deeper_quote plainQuote ++
        (get_smart_quotes divCtx.quote_depth).2 ++
        HtmlR.escIf divCtx "" ++ HtmlR.tcChildren divCtx [] :=
  smart_quote_alternation.2.1 divCtx plainQuote "" [] (by decide)

/-- Claim C4: Cross-reference resolution in hypertext inline rendering: with a
truthy id-map, a bare target found in the map becomes
`<mapped-file>#<identifier>` and a bare target absent from the map becomes
the same-file fragment `#<target>`; a target already starting with `#` or
an absolute URL prefix is left unchanged.  Concretely, with id-map
`{"ch1": "chapter1"}`, `"ch1"` resolves to `chapter1#ch1`, `"unknown"` to
`#unknown`, and `"https://example.com"` stays unchanged, and the rendered
paragraph carries the resolved link. -/
theorem ref_resolution :
    (∀ (m : List (String × String)) (t f : String), ¬ m.isEmpty →
      ¬ HtmlR.targetStartsSpecial t → m.lookup t = some f →
      HtmlR.resolveTarget m t = f ++ "#" ++ t) ∧
    (∀ (m : List (String × String)) (t : String),
      ¬ HtmlR.targetStartsSpecial t → m.lookup t = none →
      HtmlR.resolveTarget m t = "#" ++ t) ∧
    (∀ (m : List (String × String)) (t : String),
      HtmlR.targetStartsSpecial t → HtmlR.resolveTarget m t = t) ∧
    HtmlR.resolveTarget [("ch1", "chapter1")] "ch1" = "chapter1#ch1" ∧
    HtmlR.resolveTarget [("ch1", "chapter1")] "unknown" = "#unknown" ∧
    HtmlR.resolveTarget [("ch1", "chapter1")] "https://example.com" =
      "https://example.com" ∧
    HtmlR.render_text_content refCtx refPara =
      "See <a href=\"chapter1#ch1\">Chapter 1</a>." := by
  refine ⟨fun m t f hm ht hl => ?_, fun m t ht hl => ?_, fun m t ht => ?_,
    by decide, by decide, by decide, by decide⟩
  · simp [HtmlR.resolveTarget, hm, ht, hl]
  · by_cases hm : m.isEmpty <;>
      simp [HtmlR.resolveTarget, hm, ht, hl]
  · simp [HtmlR.resolveTarget, ht]

/-- Witness for `ref_resolution`: its mapped-target equation instantiated at
the spec's id-map example. -/
theorem ref_resolution_witness :
    HtmlR.resolveTarget [("ch1", "chapter1")] "ch1" = "chapter1" ++ "#" ++ "ch1" :=
  ref_resolution.1 [("ch1", "chapter1")] "ch1" "chapter1"
    (by decide) (by decide) (by decide)

/-- Claim C8 counterexample: the plain-text renderer's dispatch does not fall
back to flattened-text rendering — on an unrecognised tag holding the
non-empty text `"x"` it returns the empty line list, dropping the text,
while the claim says it returns the flattened text. -/
theorem unknown_tag_text_dropped :
    TextR.render_element 72 divCtx fooElem "foo" = [] ∧
    extract_plain_text fooElem = "x" := by
  constructor
  · simp [TextR.render_element]
  · decide

/-- Claim C8 (amended): for every unrecognised tag the hypertext renderer's
dispatch falls back to flattened-text rendering (`render_text_content`),
while the plain-text renderer's dispatch returns empty output, silently
dropping the element. -/
theorem unknown_tag_fallback (W : Nat) (v : HtmlR.Variant) (par : Option Elem)
    (ctx : RenderContext) (e : Elem) (tag : String) :
    (tag ∉ ["div", "head", "p", "quote", "lg", "list", "table", "figure",
        "milestone"] →
      TextR.render_element W ctx e tag = []) ∧
    (tag ∉ ["div", "head", "p", "quote", "lg", "list", "table", "figure",
        "milestone", "signed"] →
      HtmlR.render_element v par ctx e tag = HtmlR.render_text_content ctx e) := by
  constructor
  · intro h
    simp only [List.mem_cons, List.mem_singleton, not_or] at h
    obtain ⟨h1, h2, h3, h4, h5, h6, h7, h8, h9, -⟩ := h
    rw [TextR.render_element.eq_def]
    simp [h1, h2, h3, h4, h5, h6, h7, h8, h9]
  · intro h
    simp only [List.mem_cons, List.mem_singleton, not_or] at h
    obtain ⟨h1, h2, h3, h4, h5, h6, h7, h8, h9, h10, -⟩ := h
    rw [HtmlR.render_element.eq_def]
    simp [h1, h2, h3, h4, h5, h6, h7, h8, h9, h10]

/-- Witness for `unknown_tag_fallback`: both dispatch fallbacks instantiated
at the unrecognised tag `foo`. -/
theorem unknown_tag_fallback_witness :
    TextR.render_element 72 divCtx fooElem "foo" = [] ∧
    HtmlR.render_element .html none divCtx fooElem "foo" =
      HtmlR.render_text_content divCtx fooElem :=
  ⟨(unknown_tag_fallback 72 .html none divCtx fooElem "foo").1 (by decide),
   (unknown_tag_fallback 72 .html none divCtx fooElem "foo").2 (by decide)⟩

/-- Claim C3 (code bug): the chapter fixture does carry `xml:id="ch1"`, yet
`render_chapter` emits its heading *without* the anchor id, because line 78
of epub_renderer.py reads the attribute under the misspelled namespace
`http://www.w3.org/1998/namespace` (missing `XML/`): the emitted parts
contain `<h2>Chapter One</h2>` and not `<h2 id="ch1">Chapter One</h2>`,
contradicting the repository's own test
(src/tests/test_epub_renderer.py lines 150-161). -/
theorem chapter_heading_anchor_dropped :
    chapterDiv.get xmlIdAttr "" = "ch1" ∧
    EpubR.chapter_parts chapterDiv "Book Title" [] =
      ["<?xml version=\"1.0\" encoding=\"UTF-8\"?>",
       "<!DOCTYPE html>",
       "<html xmlns=\"http://www.w3.org/1999/xhtml\" xmlns:epub=\"http://www.idpf.org/2007/ops\">",
       "<head>",
       "  <title>Chapter One</title>",
       "  <link rel=\"stylesheet\" type=\"text/css\" href=\"styles.css\"/>",
       "</head>",
       "<body>",
       "<h2>Chapter One</h2>",
       "<p>Content.</p>",
       "</body>", "</html>"] ∧
    "<h2 id=\"ch1\">Chapter One</h2>" ∉
      EpubR.chapter_parts chapterDiv "Book Title" [] := by
  have h1 : HtmlR.traverse_element .epubv (some chapterDiv)
      (({ parent_tag := "body", xhtml := true, id_map := [] } :
        RenderContext).with_parent "div")
      (.mk "p" [] "Content." []) = "<p>Content.</p>" := by
    simp only [HtmlR.traverse_element, HtmlR.render_element]
    decide
  have h2 : EpubR.chapter_parts chapterDiv "Book Title" [] =
      ["<?xml version=\"1.0\" encoding=\"UTF-8\"?>",
       "<!DOCTYPE html>",
       "<html xmlns=\"http://www.w3.org/1999/xhtml\" xmlns:epub=\"http://www.idpf.org/2007/ops\">",
       "<head>",
       "  <title>Chapter One</title>",
       "  <link rel=\"stylesheet\" type=\"text/css\" href=\"styles.css\"/>",
       "</head>",
       "<body>",
       "<h2>Chapter One</h2>",
       "<p>Content.</p>",
       "</body>", "</html>"] := by
    simp only [EpubR.chapter_parts, List.filter, List.filterMap, h1]
    decide
  refine ⟨by decide, h2, ?_⟩
  rw [h2]
  decide

/-- Claim C9: the packaged-book chapter-framing operation is deterministic
and reads no renderer-instance state: its output depends only on the
division, the fallback title and the id-map, so two independent
invocations — even on instances whose mutable fields (`title` cache,
`css_file`) differ — produce byte-identical strings. -/
theorem render_chapter_deterministic :
    ∀ (s1 s2 : EpubR.RendererState) (div : Elem) (book_title : String)
      (id_map : List (String × String)),
      EpubR.render_chapter_st s1 div book_title id_map =
        EpubR.render_chapter_st s2 div book_title id_map ∧
      EpubR.render_chapter div book_title id_map =
        EpubR.render_chapter div book_title id_map :=
  fun _ _ _ _ _ => ⟨rfl, rfl⟩

/-- Claim C7 counterexample: under a front-matter context the heading handler
emits the text and the `=` rule *plus a trailing blank line*, which the
claim's enumeration of the front case omits. -/
theorem front_heading_extra_blank :
    TextR.render_head { parent_tag := "front" } abHead = ["AB", "==", ""] ∧
    (["AB", "==", ""] : List String) ≠ ["AB", "=="] := by
  constructor
  · decide
  · decide

/-- Claim C7 (amended): for a heading with non-empty text the plain-text
heading handler is decided solely by the parent tag: `body` → three blank
lines, upper-cased text, two blank lines; `front` → the text, a rule of
`=` of equal length, then one blank line; `back` → upper-cased text plus
one blank line; `div` → upper-cased text plus two blank lines; every other
parent tag → empty output. -/
theorem render_head_by_parent (ctx : RenderContext) (e : Elem)
    (h : pyStrip (extract_plain_text e) ≠ "") :
    (ctx.parent_tag = "body" → TextR.render_head ctx e =
      ["", "", "", pyUpper (pyStrip (extract_plain_text e)), "", ""]) ∧
    (ctx.parent_tag = "front" → TextR.render_head ctx e =
      [pyStrip (extract_plain_text e),
       repeatStr "=" (pyStrip (extract_plain_text e)).length, ""]) ∧
    (ctx.parent_tag = "back" → TextR.render_head ctx e =
      [pyUpper (pyStrip (extract_plain_text e)), ""]) ∧
    (ctx.parent_tag = "div" → TextR.render_head ctx e =
      [pyUpper (pyStrip (extract_plain_text e)), "", ""]) ∧
    (ctx.parent_tag ∉ ["body", "front", "back", "div"] →
      TextR.render_head ctx e = []) := by
  refine ⟨fun hp => ?_, fun hp => ?_, fun hp => ?_, fun hp => ?_, fun hp => ?_⟩
  · simp [TextR.render_head, h, hp]
  · simp [TextR.render_head, h, hp]
  · simp [TextR.render_head, h, hp]
  · simp [TextR.render_head, h, hp]
  · simp only [List.mem_cons, List.mem_singleton, not_or] at hp
    obtain ⟨h1, h2, h3, h4, -⟩ := hp
    simp [TextR.render_head, h, h1, h2, h3, h4]

/-- Witness for `render_head_by_parent`: the body-context case at the
heading `Chapter One`. -/
theorem render_head_by_parent_witness :
    TextR.render_head bodyCtx chapterHead =
      ["", "", "", pyUpper (pyStrip (extract_plain_text chapterHead)), "", ""] :=
  (render_head_by_parent bodyCtx chapterHead (by decide)).1 (by decide)

/-- Claim C5 counterexample: in the plain-text renderer a line-break element
does become a literal newline in the extracted paragraph text, but
`render_paragraph`'s whitespace normalisation collapses it before
wrapping, so the text before and after the break ends up joined on one
wrapped output line — for `<p>Line 1<lb/>Line 2</p>` the single content
line is exactly `"Line 1" ++ " " ++ "Line 2"`. -/
theorem line_break_joined :
    TextR.extract_text_with_emphasis divCtx lbPara = "Line 1\nLine 2" ∧
    TextR.render_paragraph 72 divCtx lbPara = ["Line 1 Line 2", ""] ∧
    "Line 1 Line 2" = "Line 1" ++ " " ++ "Line 2" := by
  refine ⟨by decide, by decide, by decide⟩

/-- Claim C5 (amended): a line-break element inside a paragraph becomes a
literal newline in the extracted text, but `render_paragraph` collapses
all whitespace runs — that newline included — to single spaces before
wrapping, so the text around the break is re-flowed like ordinary prose:
for `<p>Line 1<lb/>Line 2</p>` at any width of at least 13 the two
fragments are joined on one output line. -/
theorem line_break_collapsed (w : Nat) (hw : 13 ≤ w) :
    TextR.extract_text_with_emphasis divCtx lbPara = "Line 1\nLine 2" ∧
    TextR.render_paragraph w divCtx lbPara = ["Line 1 Line 2", ""] := by
  have hx : pyStrip (TextR.extract_text_with_emphasis divCtx lbPara) =
      "Line 1\nLine 2" := by decide
  have hsp : pySplit "Line 1\nLine 2" = ["Line", "1", "Line", "2"] := by decide
  have hi : divCtx.current_indent = "" := by decide
  have hl0 : ("" : String).length = 0 := by decide
  have l1 : ("Line" : String).length = 4 := by decide
  have l2 : ("1" : String).length = 1 := by decide
  have l3 : ("2" : String).length = 1 := by decide
  have h6 : 6 ≤ w := by omega
  have h11 : 11 ≤ w := by omega
  have h13 : 13 ≤ w := by omega
  refine ⟨by decide, ?_⟩
  simp only [TextR.render_paragraph, hx, hsp, hi]
  rw [if_neg (by decide)]
  simp only [fillLines, hl0, Nat.sub_zero]
  simp only [wrapChunks, List.isEmpty_nil, List.isEmpty_cons, l1, l2, l3]
  simp [h6, h11, h13]
  decide

/-- Witness for `line_break_collapsed`: the collapse at the renderer's
default width 72. -/
theorem line_break_collapsed_witness :
    TextR.extract_text_with_emphasis divCtx lbPara = "Line 1\nLine 2" ∧
    TextR.render_paragraph 72 divCtx lbPara = ["Line 1 Line 2", ""] :=
  line_break_collapsed 72 (by decide)

/-- Length of an appended string is the sum of the lengths. -/
theorem strLength_append (a b : String) : (a ++ b).length = a.length + b.length := by
  cases a with
  | mk da => cases b with
    | mk db => simp [String.length, String.append]

/-- Folding the space-join over a word list adds each word's length plus
one separator. -/
theorem foldl_join_length (ws : List String) :
    ∀ acc : String,
      (ws.foldl (fun a b => a ++ " " ++ b) acc).length =
        acc.length + (ws.map (fun x => x.length + 1)).sum := by
  induction ws with
  | nil => intro acc; simp
  | cons x xs ih =>
    intro acc
    simp only [List.foldl_cons, ih, List.map_cons, List.sum_cons]
    rw [strLength_append, strLength_append]
    have h1 : (" " : String).length = 1 := by decide
    omega

/-- The space-join of a word group has length `lineLen`. -/
theorem pyJoin_space_length (g : List String) :
    (pyJoin " " g).length = lineLen g := by
  cases g with
  | nil => decide
  | cons w ws =>
    simp only [pyJoin, lineLen, foldl_join_length]

/-- Appending one word to a non-empty line group adds the word's length
plus the separator. -/
theorem lineLen_append_single (xs : List String) (w : String) (hxs : xs ≠ []) :
    lineLen (xs ++ [w]) = lineLen xs + (w.length + 1) := by
  cases xs with
  | nil => exact absurd rfl hxs
  | cons x xs' =>
    simp only [List.cons_append, lineLen, List.map_append, List.sum_append,
      List.map_cons, List.sum_cons, List.map_nil, List.sum_nil]
    omega

/-- Greedy wrapping invariant: when every word fits in the available width
and the current line's joined length is `curLen ≤ avail`, every emitted
word group has joined length at most `avail`. -/
theorem wrapChunks_lineLen_le (avail : Nat) (words : List String) :
    ∀ (cur : List String) (curLen : Nat),
      (∀ x ∈ words, x.length ≤ avail) →
      lineLen cur.reverse = curLen → curLen ≤ avail →
      ∀ g ∈ wrapChunks avail avail cur curLen words, lineLen g ≤ avail := by
  induction words with
  | nil =>
    intro cur curLen hw hcur hle g hg
    simp only [wrapChunks] at hg
    by_cases hc : cur.isEmpty
    · simp [hc] at hg
    · simp only [hc, Bool.false_eq_true, if_false, List.mem_singleton] at hg
      subst hg
      exact hcur ▸ hle
  | cons w ws ih =>
    intro cur curLen hw hcur hle g hg
    have hwhead : w.length ≤ avail := hw w (List.mem_cons_self w ws)
    have hwtail : ∀ x ∈ ws, x.length ≤ avail :=
      fun x hx => hw x (List.mem_cons_of_mem w hx)
    have hsingle : lineLen ([w] : List String).reverse = w.length := by
      simp [lineLen]
    simp only [wrapChunks] at hg
    by_cases hc : cur.isEmpty
    · simp only [hc, if_true] at hg
      exact ih [w] w.length hwtail hsingle hwhead g hg
    · by_cases hf : curLen + 1 + w.length ≤ avail
      · simp only [hc, Bool.false_eq_true, if_false, hf, if_true] at hg
        have hne : cur ≠ [] := fun h => by simp [h] at hc
        have hrevne : cur.reverse ≠ [] := fun h => hne (by simpa using h)
        have hcur2 : lineLen (w :: cur).reverse = curLen + 1 + w.length := by
          rw [List.reverse_cons, lineLen_append_single cur.reverse w hrevne, hcur]
          omega
        exact ih (w :: cur) (curLen + 1 + w.length) hwtail hcur2 hf g hg
      · simp only [hc, Bool.false_eq_true, if_false, hf, List.mem_cons] at hg
        rcases hg with rfl | hg
        · exact hcur ▸ hle
        · exact ih [w] w.length hwtail hsingle hwhead g hg

/-- Every line of `fillLines` with equal indents whose words all fit the
available width has length at most the wrap width. -/
theorem fillLines_length_le (W : Nat) (ind : String) (words : List String)
    (hind : ind.length ≤ W)
    (hw : ∀ x ∈ words, x.length ≤ W - ind.length) :
    ∀ line ∈ fillLines W ind ind words, line.length ≤ W := by
  intro line hl
  have hbase : ∀ g ∈ wrapChunks (W - ind.length) (W - ind.length) [] 0 words,
      lineLen g ≤ W - ind.length :=
    wrapChunks_lineLen_le (W - ind.length) words [] 0 hw (by simp [lineLen])
      (Nat.zero_le _)
  have hline : ∀ g ∈ wrapChunks (W - ind.length) (W - ind.length) [] 0 words,
      (ind ++ pyJoin " " g).length ≤ W := by
    intro g hg
    rw [strLength_append, pyJoin_space_length]
    have := hbase g hg
    omega
  simp only [fillLines] at hl
  rcases hwc : wrapChunks (W - ind.length) (W - ind.length) [] 0 words with
    _ | ⟨g, gs⟩
  · rw [hwc] at hl
    simp only [List.mem_singleton] at hl
    subst hl
    exact Nat.zero_le W
  · rw [hwc] at hl
    simp only [List.mem_cons, List.mem_map] at hl
    rcases hl with rfl | ⟨g2, hg2, rfl⟩
    · exact hline g (hwc ▸ List.mem_cons_self g gs)
    · exact hline g2 (hwc ▸ List.mem_cons_of_mem g hg2)

/-- Claim C6 (amended): provided the context indent fits in the renderer's
line width and every whitespace-separated word of the paragraph's
extracted text fits in `line_width` minus the indent width, every line
emitted by the plain-text paragraph renderer — the indent prefix included,
and the trailing blank line too — has length at most `line_width`.
(Without the word proviso a longer word is emitted unbroken,
`break_long_words=False`, and its line exceeds the width; and with a
non-empty indent a full line may reach `line_width` itself, not
`line_width` minus the indent.) -/
theorem render_paragraph_width_bound (W : Nat) (ctx : RenderContext)
    (e : Elem) (hind : ctx.current_indent.length ≤ W)
    (hw : ∀ x ∈ pySplit (pyStrip (TextR.extract_text_with_emphasis ctx e)),
      x.length ≤ W - ctx.current_indent.length) :
    ∀ line ∈ TextR.render_paragraph W ctx e, line.length ≤ W := by
  intro line hl
  simp only [TextR.render_paragraph] at hl
  by_cases ht : pyStrip (TextR.extract_text_with_emphasis ctx e) = ""
  · rw [if_pos ht] at hl
    simp at hl
  · rw [if_neg ht, List.mem_append] at hl
    rcases hl with hl | hl
    · exact fillLines_length_le W ctx.current_indent _ hind hw line hl
    · simp only [List.mem_singleton] at hl
      subst hl
      exact Nat.zero_le W

/-- Witness for `render_paragraph_width_bound`: the single wrapped line of
`<p>hello world</p>` at width 72 under a division context is within the
width. -/
theorem render_paragraph_width_bound_witness :
    ("hello world" : String).length ≤ 72 :=
  render_paragraph_width_bound 72 divCtx helloPara (by decide) (by decide)
    "hello world" (by decide)

/-- Claim C6 counterexample: the claim fails on both conjuncts.  A word
longer than the width is emitted unbroken (`break_long_words=False`), so a
7-character word at width 5 yields a 7-character line; and with a one-level
indent at width 10 the first (non-final) emitted line is the indent plus
the word — 7 characters, exceeding `line_width − indent width = 6`. -/
theorem wrapped_line_exceeds_width :
    TextR.render_paragraph 5 divCtx longWordPara = ["aaaaaaa", ""] ∧
    5 < ("aaaaaaa" : String).length ∧
    TextR.render_paragraph 10 indent1Ctx twoWordPara =
      ["    aaa", "    bbb", ""] ∧
    10 - ("    " : String).length < ("    aaa" : String).length := by
  refine ⟨by decide, by decide, by decide, by decide⟩
